import Mathlib

/-!
# Verification of the cross-chain bridge routing core

A shallow embedding, in Lean 4, of the quote-aggregation and routing
subsystem of the cross-chain bridge aggregator:

* `app/services/bridges/base.py` — shared data model (`RouteParams`,
  `FeeBreakdown`, `BridgeQuote`) and `BaseBridge.supports_route`;
* `app/services/bridges/across.py` — the Across adapter's fee computation
  (`_parse_across_response`, `_estimate_gas_cost`, `_get_chain_id`);
* `app/services/route_discovery.py` — `RouteDiscoveryEngine`: quote
  collection, weighted ranking (`_rank_routes`) and the cache key
  (`_get_cache_key`, a canonical-JSON MD5 fingerprint);
* `app/services/multi_hop_router.py` — `MultiHopRouter`: the two-hop
  search (`_try_two_hop_route`) and the direct-versus-multi-hop
  comparison in `find_best_route`;
* `app/services/reliability_scorer.py` — `ReliabilityScorer`: the
  time-consistency component (`_calculate_time_consistency_score`) and the
  letter rating (`_get_rating`).

Python floats and `Decimal` values are modelled as exact rationals (`ℚ`);
Python's `x ** 0.5` square root is modelled as the real square root, so the
scorer lives in `ℝ`.  Asynchronous fan-out is modelled by passing the
already-collected per-adapter results (a `List (Option BridgeQuote)`) to the
pure tail of each routine; a `none` entry stands for an adapter that
declined, errored or timed out.
-/

/-! ## Python-semantics helpers -/

/-- Value of a decimal digit character. -/
def digitVal (c : Char) : Nat := c.toNat - 48

/-- Numeric value of a list of decimal digit characters. -/
def digitsVal (cs : List Char) : Nat := cs.foldl (fun acc c => acc * 10 + digitVal c) 0

/-- Python `float(s)` on a plain decimal numeral: optional leading minus,
integer part, optional fractional part.  (Python raises `ValueError` on
other inputs; the routines modelled here only ever parse plain numerals.) -/
def pyFloat (s : String) : ℚ :=
  let cs := s.data
  let neg := cs.head? = some '-'
  let cs := if neg then cs.tail else cs
  let intPart := cs.takeWhile Char.isDigit
  let rest := cs.dropWhile Char.isDigit
  let fracPart := match rest with
    | '.' :: fs => fs.takeWhile Char.isDigit
    | _ => []
  let v : ℚ := (digitsVal intPart : ℚ) + (digitsVal fracPart : ℚ) / (10 ^ fracPart.length : ℚ)
  if neg then -v else v

/-- Round to the nearest integer, ties to even — the rounding used by
Python's built-in `round`. -/
def roundHalfEven (q : ℚ) : ℤ :=
  let f := ⌊q⌋
  let r := q - (f : ℚ)
  if r < 1 / 2 then f
  else if 1 / 2 < r then f + 1
  else if f % 2 = 0 then f else f + 1

/-- Python `round(q, 2)`. -/
def pyRound2 (q : ℚ) : ℚ := (roundHalfEven (q * 100) : ℚ) / 100

/-- Python `max(l)` guarded by `if l else default`
(as in `max(costs) if costs else 1`). -/
def pyMax (l : List ℚ) (default : ℚ) : ℚ :=
  match l with
  | [] => default
  | x :: xs => xs.foldl max x

theorem pyRound2_intCast (n : ℤ) : pyRound2 (n : ℚ) = (n : ℚ) := by
  have hfloor : ⌊(n : ℚ) * 100⌋ = n * 100 := by
    rw [show ((n : ℚ) * 100) = ((n * 100 : ℤ) : ℚ) by push_cast; ring]
    exact Int.floor_intCast _
  simp only [pyRound2, roundHalfEven, hfloor]
  push_cast
  norm_num

theorem pyRound2_zero : pyRound2 0 = 0 := by
  simpa using pyRound2_intCast 0

/-! ## Data model (`app/services/bridges/base.py`) -/

/-- `RouteParams` dataclass. -/
structure RouteParams where
  source_chain : String
  destination_chain : String
  source_token : String
  destination_token : String
  amount : String
  user_address : Option String := none
deriving DecidableEq

/-- `FeeBreakdown` dataclass (all `Decimal`s, modelled as `ℚ`). -/
structure FeeBreakdown where
  bridge_fee_usd : ℚ
  gas_cost_source_usd : ℚ
  gas_cost_destination_usd : ℚ
  total_cost_usd : ℚ
  slippage_percentage : Option ℚ := none
deriving DecidableEq

/-- `BridgeQuote` dataclass.  `steps` entries are the
`(action, description)` pairs of the step dicts. -/
structure BridgeQuote where
  bridge_name : String
  protocol : String
  route_type : String
  estimated_time_seconds : ℤ
  fee_breakdown : FeeBreakdown
  success_rate : ℚ
  steps : List (String × String) := []
  requires_approval : Bool := false
  minimum_amount : Option String := none
  maximum_amount : Option String := none
  quote_id : Option String := none
deriving DecidableEq

/-- `BaseBridge.supports_route`: membership of both chain ids in the
adapter's `supported_chains` plus the source-not-equal-destination check. -/
def supports_route (supported_chains : List ℤ) (source_chain_id dest_chain_id : ℤ) : Bool :=
  decide (source_chain_id ∈ supported_chains) &&
  decide (dest_chain_id ∈ supported_chains) &&
  decide (source_chain_id ≠ dest_chain_id)

/-! ## Ranking (`RouteDiscoveryEngine._rank_routes`) -/

/-- The optional per-call ranking preferences dict: each weight may be
overridden (`preferences.get("cost_weight", 0.40)` and friends). -/
structure RankingPreferences where
  cost_weight : Option ℚ := none
  speed_weight : Option ℚ := none
  reliability_weight : Option ℚ := none
  liquidity_weight : Option ℚ := none
deriving DecidableEq

/-- The effective weights dict built at the top of `_rank_routes`. -/
structure RankingWeights where
  cost : ℚ
  speed : ℚ
  reliability : ℚ
  liquidity : ℚ
deriving DecidableEq

def weightsFrom (preferences : RankingPreferences) : RankingWeights where
  cost := preferences.cost_weight.getD 0.40
  speed := preferences.speed_weight.getD 0.30
  reliability := preferences.reliability_weight.getD 0.20
  liquidity := preferences.liquidity_weight.getD 0.10

/-- `max_cost = max(costs) if costs else 1`. -/
def batchMaxCost (quotes : List BridgeQuote) : ℚ :=
  pyMax (quotes.map (fun q => q.fee_breakdown.total_cost_usd)) 1

/-- `max_time = max(times) if times else 1` (the integer maximum, viewed
in `ℚ`; casting commutes with `max`). -/
def batchMaxTime (quotes : List BridgeQuote) : ℚ :=
  pyMax (quotes.map (fun q => (q.estimated_time_seconds : ℚ))) 1

/-- The per-quote weighted score computed in the loop of `_rank_routes`. -/
def quoteScore (w : RankingWeights) (maxCost maxTime : ℚ) (q : BridgeQuote) : ℚ :=
  let cost_score := 100 * (1 - q.fee_breakdown.total_cost_usd / maxCost)
  let speed_score := 100 * (1 - (q.estimated_time_seconds : ℚ) / maxTime)
  let reliability_score := q.success_rate
  let liquidity_score : ℚ := 100
  cost_score * w.cost + speed_score * w.speed +
    reliability_score * w.reliability + liquidity_score * w.liquidity

/-- `_rank_routes`: score every quote against the batch maxima, then
`scored_quotes.sort(key=lambda x: x[0], reverse=True)` — a stable sort,
descending by score — and return the quotes. -/
def rank_routes (quotes : List BridgeQuote) (preferences : RankingPreferences) :
    List BridgeQuote :=
  if quotes = [] then []
  else
    let w := weightsFrom preferences
    let maxCost := batchMaxCost quotes
    let maxTime := batchMaxTime quotes
    quotes.mergeSort (fun a b =>
      decide (quoteScore w maxCost maxTime b ≤ quoteScore w maxCost maxTime a))

/-- The weighted-score formula exactly as the specification words it:
`0.40·cost + 0.30·speed + 0.20·reliability + 0.10·liquidity`, each weight
overridable via the preferences argument, `cost_score`/`speed_score`
normalised against the batch maxima, `reliability` the success rate and
`liquidity` the constant 100.  Stated independently of `quoteScore` so the
implementation can be compared against it. -/
def specWeightedScore (preferences : RankingPreferences) (maxCost maxTime : ℚ)
    (q : BridgeQuote) : ℚ :=
  preferences.cost_weight.getD 0.40 * (100 * (1 - q.fee_breakdown.total_cost_usd / maxCost)) +
  preferences.speed_weight.getD 0.30 * (100 * (1 - (q.estimated_time_seconds : ℚ) / maxTime)) +
  preferences.reliability_weight.getD 0.20 * q.success_rate +
  preferences.liquidity_weight.getD 0.10 * 100

theorem quoteScore_eq_specWeightedScore (p : RankingPreferences) (maxCost maxTime : ℚ)
    (q : BridgeQuote) :
    quoteScore (weightsFrom p) maxCost maxTime q = specWeightedScore p maxCost maxTime q := by
  simp only [quoteScore, specWeightedScore, weightsFrom]
  ring

theorem rankLe_trans (w : RankingWeights) (mc mt : ℚ) (a b c : BridgeQuote)
    (hab : decide (quoteScore w mc mt b ≤ quoteScore w mc mt a) = true)
    (hbc : decide (quoteScore w mc mt c ≤ quoteScore w mc mt b) = true) :
    decide (quoteScore w mc mt c ≤ quoteScore w mc mt a) = true := by
  rw [decide_eq_true_iff] at *
  exact le_trans hbc hab

theorem rankLe_total (w : RankingWeights) (mc mt : ℚ) (a b : BridgeQuote) :
    (decide (quoteScore w mc mt b ≤ quoteScore w mc mt a) ||
     decide (quoteScore w mc mt a ≤ quoteScore w mc mt b)) = true := by
  rcases le_total (quoteScore w mc mt b) (quoteScore w mc mt a) with h | h <;>
    simp [h]

/-- **C1.**  For every non-empty batch of quotes, `_rank_routes` returns a
permutation of the batch that is sorted descending by the weighted score
`0.40·cost + 0.30·speed + 0.20·reliability + 0.10·liquidity` (each weight
overridable via the preferences argument), where
`cost_score = 100·(1 − total_cost_usd / max total_cost_usd in batch)`,
`speed_score = 100·(1 − estimated_time_seconds / max time in batch)`,
`reliability_score = success_rate` and `liquidity_score = 100`
(`specWeightedScore` spells this formula out in the specification's own
wording).  The hypotheses `0 < max cost` and `0 < max time` restrict the
statement to the batches on which the Python division is defined. -/
theorem C1_rank_routes_weighted_ranking (quotes : List BridgeQuote)
    (p : RankingPreferences) (hne : quotes ≠ [])
    (_hc : 0 < batchMaxCost quotes) (_ht : 0 < batchMaxTime quotes) :
    (rank_routes quotes p).Perm quotes ∧
    (rank_routes quotes p).Pairwise (fun a b =>
      specWeightedScore p (batchMaxCost quotes) (batchMaxTime quotes) b ≤
      specWeightedScore p (batchMaxCost quotes) (batchMaxTime quotes) a) := by
  unfold rank_routes
  rw [if_neg hne]
  constructor
  · exact List.mergeSort_perm quotes _
  · have hs := List.sorted_mergeSort
      (rankLe_trans (weightsFrom p) (batchMaxCost quotes) (batchMaxTime quotes))
      (rankLe_total (weightsFrom p) (batchMaxCost quotes) (batchMaxTime quotes)) quotes
    refine hs.imp ?_
    intro a b h
    rw [← quoteScore_eq_specWeightedScore, ← quoteScore_eq_specWeightedScore]
    exact of_decide_eq_true h

/-- **C8.**  `_rank_routes` is a pure function of the batch and the
preferences (so two runs on the same input return the same order), and the
sort is stable: two quotes with equal weighted scores appear in the output
in the same relative order as in the input, with no secondary key. -/
theorem C8_rank_routes_stable (quotes : List BridgeQuote) (p : RankingPreferences)
    (a b : BridgeQuote) (hsub : [a, b].Sublist quotes)
    (heq : specWeightedScore p (batchMaxCost quotes) (batchMaxTime quotes) a =
           specWeightedScore p (batchMaxCost quotes) (batchMaxTime quotes) b) :
    [a, b].Sublist (rank_routes quotes p) := by
  have hne : quotes ≠ [] := by
    intro h
    subst h
    exact absurd (List.Sublist.length_le hsub) (by simp)
  unfold rank_routes
  rw [if_neg hne]
  refine List.sublist_mergeSort (rankLe_trans _ _ _) (rankLe_total _ _ _) ?_ hsub
  refine List.pairwise_cons.mpr ⟨?_, by simp⟩
  intro x hx
  rw [List.mem_singleton] at hx
  subst hx
  rw [decide_eq_true_iff, quoteScore_eq_specWeightedScore,
    quoteScore_eq_specWeightedScore]
  exact le_of_eq heq.symm

/-- Fee breakdown used by concrete witnesses: a pure bridge fee of `c`. -/
def fbW (c : ℚ) : FeeBreakdown :=
  { bridge_fee_usd := c, gas_cost_source_usd := 0, gas_cost_destination_usd := 0,
    total_cost_usd := c }

/-- Quote used by concrete witnesses. -/
def quoteW (name : String) (c : ℚ) (t : ℤ) : BridgeQuote :=
  { bridge_name := name, protocol := "mock", route_type := "direct",
    estimated_time_seconds := t, fee_breakdown := fbW c, success_rate := 99 }

theorem C1_witness :
    (rank_routes [quoteW "a" 5 180, quoteW "b" 8 90] {}).Perm
      [quoteW "a" 5 180, quoteW "b" 8 90] ∧
    (rank_routes [quoteW "a" 5 180, quoteW "b" 8 90] {}).Pairwise (fun a b =>
      specWeightedScore {} (batchMaxCost [quoteW "a" 5 180, quoteW "b" 8 90])
        (batchMaxTime [quoteW "a" 5 180, quoteW "b" 8 90]) b ≤
      specWeightedScore {} (batchMaxCost [quoteW "a" 5 180, quoteW "b" 8 90])
        (batchMaxTime [quoteW "a" 5 180, quoteW "b" 8 90]) a) :=
  C1_rank_routes_weighted_ranking [quoteW "a" 5 180, quoteW "b" 8 90] {}
    (by simp)
    (by norm_num [batchMaxCost, pyMax, quoteW, fbW, lt_max_iff])
    (by norm_num [batchMaxTime, pyMax, quoteW, lt_max_iff])

theorem C8_witness :
    [quoteW "x" 5 100, quoteW "y" 5 100].Sublist
      (rank_routes [quoteW "x" 5 100, quoteW "y" 5 100] {}) :=
  C8_rank_routes_stable [quoteW "x" 5 100, quoteW "y" 5 100] {}
    (quoteW "x" 5 100) (quoteW "y" 5 100) (List.Sublist.refl _) rfl

theorem rank_routes_length (quotes : List BridgeQuote) (p : RankingPreferences) :
    (rank_routes quotes p).length = quotes.length := by
  unfold rank_routes
  split
  · simp [*]
  · exact List.length_mergeSort quotes

/-- **C9.**  `BaseBridge.supports_route` returns `True` exactly when both
chain ids belong to the adapter's `supported_chains` list and the two ids
differ; in particular it is always `False` on an equal pair. -/
theorem C9_supports_route_iff (supported_chains : List ℤ) (s d : ℤ) :
    (supports_route supported_chains s d = true ↔
      s ∈ supported_chains ∧ d ∈ supported_chains ∧ s ≠ d) ∧
    supports_route supported_chains s s = false := by
  constructor
  · simp [supports_route, and_assoc]
  · simp [supports_route]

/-! ## Discovery outcome on an empty batch (`discover_routes`) -/

/-- The typed signal the specification says `discover_routes` raises when
zero quotes were produced. -/
inductive NoRoutesFound where
  | noRoutesFound
deriving DecidableEq

/-- The quote-collection step of `discover_routes` /
`_query_all_bridges`: exceptions and `None` results contribute nothing
(both are modelled as a `none` entry). -/
def collect_quotes (results : List (Option BridgeQuote)) : List BridgeQuote :=
  results.filterMap id

/-- The pure tail of `discover_routes` after the per-bridge results are
gathered: `if not quotes: return []`, otherwise rank (the 30-second cache
around this is not involved in the zero-quote behaviour). -/
def discover_routes_result (results : List (Option BridgeQuote))
    (preferences : RankingPreferences) : List BridgeQuote :=
  let quotes := collect_quotes results
  if quotes = [] then []
  else rank_routes quotes preferences

/-- Modelled from the spec: the outcome type the specification describes
for `discover_routes` — `NoRoutesFound` as "an explicit typed
error/signal", distinct from any ordinary list of quotes, whenever zero
quotes were produced.  Used only to compare the code's actual behaviour
against the claimed one. -/
def discover_routes_spec_signal (results : List (Option BridgeQuote))
    (preferences : RankingPreferences) : Except NoRoutesFound (List BridgeQuote) :=
  let quotes := collect_quotes results
  if quotes = [] then .error .noRoutesFound
  else .ok (rank_routes quotes preferences)

/-- **C4, counterexample.**  With every adapter declining (two `none`
results), `discover_routes` returns the ordinary success value `[]` — an
empty list of quotes — not the distinct `NoRoutesFound` error/signal the
claim describes: its outcome, injected into the signalling type, differs
from the claimed outcome. -/
theorem C4_counterexample :
    discover_routes_result [none, none] {} = ([] : List BridgeQuote) ∧
    Except.ok (discover_routes_result [none, none] {}) ≠
      discover_routes_spec_signal [none, none] {} := by
  constructor
  · rfl
  · intro h
    rw [show discover_routes_spec_signal [none, none] {} =
        Except.error NoRoutesFound.noRoutesFound from rfl] at h
    exact Except.noConfusion h

/-- **C4, amended.**  When zero quotes were produced, `discover_routes`
returns the empty list — an ordinary value, not a raised exception — and
since a successful discovery always returns a non-empty ranked list, the
empty list is nonetheless a distinguishable "no routes" outcome for the
caller (the HTTP layer maps it to a 404). -/
theorem C4_discover_routes_empty (results : List (Option BridgeQuote))
    (preferences : RankingPreferences) :
    (collect_quotes results = [] → discover_routes_result results preferences = []) ∧
    (collect_quotes results ≠ [] → discover_routes_result results preferences ≠ []) := by
  constructor
  · intro h
    simp [discover_routes_result, h]
  · intro h
    simp only [discover_routes_result, if_neg h]
    intro hcon
    have hlen := rank_routes_length (collect_quotes results) preferences
    rw [hcon, List.length_nil] at hlen
    exact h (List.eq_nil_of_length_eq_zero hlen.symm)

theorem C4_witness :
    discover_routes_result [some (quoteW "a" 5 180), none] {} ≠ [] :=
  (C4_discover_routes_empty [some (quoteW "a" 5 180), none] {}).2 (by simp [collect_quotes])

/-! ## Across adapter fee model (`app/services/bridges/across.py`) -/

/-- `AcrossBridge._get_chain_id`: chain-name (case-insensitive) to id,
unknown names map to 0. -/
def across_get_chain_id (chain_name : String) : ℤ :=
  let n := chain_name.toLower
  if n = "ethereum" then 1
  else if n = "optimism" then 10
  else if n = "arbitrum" then 42161
  else if n = "polygon" then 137
  else if n = "base" then 8453
  else 0

/-- `AcrossBridge._estimate_gas_cost`: per-chain USD gas estimate, the
relayer-paid destination side being much cheaper; unknown chains cost
`1.00`. -/
def across_estimate_gas_cost (chain_id : ℤ) (is_dest : Bool) : ℚ :=
  if is_dest then
    if chain_id = 1 then 0.50
    else if chain_id = 10 then 0.02
    else if chain_id = 42161 then 0.05
    else if chain_id = 137 then 0.01
    else if chain_id = 8453 then 0.02
    else 1.00
  else
    if chain_id = 1 then 5.00
    else if chain_id = 10 then 0.10
    else if chain_id = 42161 then 0.25
    else if chain_id = 137 then 0.05
    else if chain_id = 8453 then 0.10
    else 1.00

/-- The fee computation of `AcrossBridge._parse_across_response`: the
relayer fee percentage applied to the USD amount (the amount string is in
6-decimal token units), per-chain gas estimates, and a total that is the
sum of the three components. -/
def across_fee_breakdown (amount : String) (relay_fee_pct : ℚ)
    (source_chain destination_chain : String) : FeeBreakdown :=
  let amount_usd := pyFloat amount / 1000000
  let bridge_fee_usd := pyRound2 (amount_usd * relay_fee_pct)
  let gas_cost_source_usd := across_estimate_gas_cost (across_get_chain_id source_chain) false
  let gas_cost_dest_usd := across_estimate_gas_cost (across_get_chain_id destination_chain) true
  { bridge_fee_usd := bridge_fee_usd,
    gas_cost_source_usd := gas_cost_source_usd,
    gas_cost_destination_usd := gas_cost_dest_usd,
    total_cost_usd := bridge_fee_usd + gas_cost_source_usd + gas_cost_dest_usd,
    slippage_percentage := some 0.1 }

/-- `AcrossBridge._parse_across_response`: the `BridgeQuote` built around
`across_fee_breakdown` (the timestamp-based `quote_id` is passed in). -/
def parse_across_response (amount : String) (relay_fee_pct : ℚ)
    (source_chain destination_chain : String) (quote_id : String) : BridgeQuote :=
  { bridge_name := "Across Protocol", protocol := "across", route_type := "direct",
    estimated_time_seconds := 180,
    fee_breakdown := across_fee_breakdown amount relay_fee_pct source_chain destination_chain,
    success_rate := 99.5,
    steps := [("approve", "Approve token spending"),
              ("bridge", "Bridge to " ++ destination_chain)],
    requires_approval := true,
    minimum_amount := some "1000000",
    maximum_amount := some "1000000000000",
    quote_id := some quote_id }

/-! ## Multi-hop router (`app/services/multi_hop_router.py`) -/

/-- A Python float that may be `float("inf")`, as used for the missing
`estimated_cost_usd` default in `find_best_route` and
`_try_two_hop_route`. -/
inductive PyCost where
  | fin (val : ℚ)
  | inf
deriving DecidableEq

/-- `<=` on costs (`inf` compares above every finite cost). -/
def PyCost.ble : PyCost → PyCost → Bool
  | .fin a, .fin b => decide (a ≤ b)
  | .fin _, .inf => true
  | .inf, .fin _ => false
  | .inf, .inf => true

/-- `<` on costs. -/
def PyCost.blt : PyCost → PyCost → Bool
  | .fin a, .fin b => decide (a < b)
  | .fin _, .inf => true
  | .inf, _ => false

/-- Subtraction on costs.  Only `finite − finite` and `inf − finite` are
reachable from the modelled code paths; the remaining case is mapped to
`inf` (the code never subtracts an infinite cost from anything). -/
def PyCost.sub : PyCost → PyCost → PyCost
  | .fin a, .fin b => .fin (a - b)
  | _, _ => .inf

/-- Python truthiness of a float (`0.0` is falsy, `inf` truthy). -/
def PyCost.truthy : PyCost → Bool
  | .fin a => decide (a ≠ 0)
  | .inf => true

/-- `round(x, 2)` on a possibly-infinite float (`round(inf, 2) = inf`). -/
def PyCost.round2 : PyCost → PyCost
  | .fin a => .fin (pyRound2 a)
  | .inf => .inf

/-- A quote dict returned by a `BridgeClient` (plus the `bridge_name` key
added by `_get_quote_safe`); every field access in the router goes through
`.get` with a default, so each field is optional. -/
structure DirectQuote where
  bridge_name : Option String := none
  estimated_cost_usd : Option ℚ := none
  estimated_time_minutes : Option ℚ := none
  amount_out : Option String := none
  gas_cost_native : Option String := none
  gas_cost_usd : Option ℚ := none
deriving DecidableEq

/-- `x.get("estimated_cost_usd", float("inf"))` — the `min` key used on
quote dicts. -/
def DirectQuote.costKey (q : DirectQuote) : PyCost :=
  match q.estimated_cost_usd with
  | some c => .fin c
  | none => .inf

/-- Python `min(l, key=key)`: the first element with minimal key, `None`
modelled for the empty list (the code always guards with `if not l`). -/
def pyMinBy {α : Type} (key : α → PyCost) : List α → Option α
  | [] => none
  | x :: xs => some (xs.foldl (fun best y => if (key y).blt (key best) then y else best) x)

/-- `RouteHop` dataclass. -/
structure RouteHop where
  source_chain : String
  destination_chain : String
  bridge_name : Option String
  token : String
  amount_in : String
  amount_out : String
  estimated_cost_usd : ℚ
  estimated_time_minutes : ℚ
  gas_cost_native : String
  gas_cost_usd : ℚ
deriving DecidableEq

/-- `MultiHopRoute` dataclass. -/
structure MultiHopRoute where
  hops : List RouteHop
  total_cost_usd : ℚ
  total_time_minutes : ℚ
  final_amount : String
  slippage_percent : ℚ
  is_better_than_direct : Bool
  savings_usd : Option ℚ := none
deriving DecidableEq

/-- `MultiHopRouter._try_two_hop_route`, with the two discovery calls it
awaits supplied as data: `hop1_quotes` is the result of
`_get_direct_quotes(source, intermediate, token, amount)` and
`hop2_quotes_for out` the result of
`_get_direct_quotes(intermediate, destination, token, out)` for the
first-hop output amount `out` (passing an oracle function makes "the
second hop is never queried" expressible: on early return the result does
not depend on it). -/
def try_two_hop_route (source intermediate destination token amount : String)
    (hop1_quotes : List DirectQuote)
    (hop2_quotes_for : String → List DirectQuote) : Option MultiHopRoute :=
  match pyMinBy DirectQuote.costKey hop1_quotes with
  | none => none
  | some hop1_best =>
    let hop1_output := hop1_best.amount_out.getD "0"
    if hop1_output = "" ∨ hop1_output = "0" then none
    else
      match pyMinBy DirectQuote.costKey (hop2_quotes_for hop1_output) with
      | none => none
      | some hop2_best =>
        let hop1 : RouteHop :=
          { source_chain := source, destination_chain := intermediate,
            bridge_name := hop1_best.bridge_name, token := token,
            amount_in := amount, amount_out := hop1_output,
            estimated_cost_usd := hop1_best.estimated_cost_usd.getD 0,
            estimated_time_minutes := hop1_best.estimated_time_minutes.getD 0,
            gas_cost_native := hop1_best.gas_cost_native.getD "0",
            gas_cost_usd := hop1_best.gas_cost_usd.getD 0 }
        let hop2 : RouteHop :=
          { source_chain := intermediate, destination_chain := destination,
            bridge_name := hop2_best.bridge_name, token := token,
            amount_in := hop1_output, amount_out := hop2_best.amount_out.getD "0",
            estimated_cost_usd := hop2_best.estimated_cost_usd.getD 0,
            estimated_time_minutes := hop2_best.estimated_time_minutes.getD 0,
            gas_cost_native := hop2_best.gas_cost_native.getD "0",
            gas_cost_usd := hop2_best.gas_cost_usd.getD 0 }
        let total_cost := hop1.estimated_cost_usd + hop2.estimated_cost_usd
        let total_time := hop1.estimated_time_minutes + hop2.estimated_time_minutes
        let final_amount := hop2.amount_out
        let amount_float := pyFloat amount
        let final_float := pyFloat final_amount
        let slippage :=
          if 0 < amount_float then (amount_float - final_float) / amount_float * 100 else 0
        some { hops := [hop1, hop2], total_cost_usd := total_cost,
               total_time_minutes := total_time, final_amount := final_amount,
               slippage_percent := pyRound2 slippage,
               is_better_than_direct := false }

/-- The two shapes a `best_route` / `alternatives` entry can take in the
dict returned by `find_best_route`: a direct quote dict, or a formatted
multi-hop route (`_format_multi_hop_route` reshapes a `MultiHopRoute`
without changing any of its data, so it is modelled by the route itself). -/
inductive BestRoute where
  | direct (q : DirectQuote)
  | multiHop (m : MultiHopRoute)
deriving DecidableEq

/-- The dict returned by `find_best_route`.  `multi_hop_checked := false`
and `none` savings model the keys being absent. -/
structure RouteResult where
  route_type : String
  best_route : Option BestRoute
  alternatives : List BestRoute
  multi_hop_checked : Bool := false
  direct_savings_usd : Option PyCost := none
  savings_usd : Option PyCost := none
deriving DecidableEq

/-- `MultiHopRouter.find_best_route`, with the direct-quote batch and the
constructed two-hop routes supplied as data (they are the results of the
`_get_direct_quotes` / `_find_multi_hop_routes` awaits). -/
def find_best_route (direct_quotes : List DirectQuote)
    (multi_hop_routes : List MultiHopRoute)
    (include_multi_hop : Bool) (max_hops : ℤ) : RouteResult :=
  let direct_best := pyMinBy DirectQuote.costKey direct_quotes
  let direct_cost : PyCost :=
    match direct_best with
    | none => .inf
    | some q => q.costKey
  if ¬ include_multi_hop ∨ max_hops < 2 then
    { route_type := "direct", best_route := direct_best.map .direct, alternatives := [] }
  else
    match pyMinBy (fun m => PyCost.fin m.total_cost_usd) multi_hop_routes with
    | none =>
      { route_type := "direct", best_route := direct_best.map .direct,
        alternatives := [], multi_hop_checked := true }
    | some best_multi_hop =>
      if direct_best.isSome && direct_cost.ble (.fin best_multi_hop.total_cost_usd) then
        { route_type := "direct", best_route := direct_best.map .direct,
          alternatives := [.multiHop best_multi_hop], multi_hop_checked := true,
          direct_savings_usd :=
            some ((PyCost.fin best_multi_hop.total_cost_usd).sub direct_cost).round2 }
      else
        let savings : Option PyCost :=
          if direct_best.isSome then
            some (direct_cost.sub (.fin best_multi_hop.total_cost_usd))
          else none
        { route_type := "multi-hop", best_route := some (.multiHop best_multi_hop),
          alternatives :=
            match direct_best with
            | some db => [.direct db]
            | none => [],
          multi_hop_checked := true,
          savings_usd :=
            match savings with
            | some s => if s.truthy then some s.round2 else none
            | none => none }

theorem PyCost.ble_refl (a : PyCost) : a.ble a = true := by
  cases a <;> simp [PyCost.ble]

theorem PyCost.ble_trans {a b c : PyCost} (h1 : a.ble b = true) (h2 : b.ble c = true) :
    a.ble c = true := by
  cases a <;> cases b <;> cases c <;> simp [PyCost.ble] at * <;> linarith

theorem PyCost.ble_of_blt {a b : PyCost} (h : a.blt b = true) : a.ble b = true := by
  cases a <;> cases b <;> simp [PyCost.blt, PyCost.ble] at * <;> linarith

theorem PyCost.ble_of_not_blt {a b : PyCost} (h : ¬ a.blt b = true) : b.ble a = true := by
  cases a <;> cases b <;> simp [PyCost.blt, PyCost.ble] at * <;> linarith

theorem pyMinBy_foldl_le {α : Type} (key : α → PyCost) (xs : List α) :
    ∀ (x y : α), y ∈ x :: xs →
      (key (xs.foldl (fun best z => if (key z).blt (key best) then z else best) x)).ble
        (key y) = true := by
  induction xs with
  | nil =>
    intro x y hy
    rw [List.mem_singleton] at hy
    subst hy
    simpa using PyCost.ble_refl (key y)
  | cons z xs ih =>
    intro x y hy
    rw [List.foldl_cons]
    have hacc := ih (if (key z).blt (key x) then z else x) _ (List.mem_cons_self _ _)
    rcases List.mem_cons.mp hy with hyx | hy2
    · rw [hyx]
      by_cases hzx : (key z).blt (key x) = true
      · exact PyCost.ble_trans (by simpa [hzx] using hacc) (PyCost.ble_of_blt hzx)
      · simpa [hzx] using hacc
    · rcases List.mem_cons.mp hy2 with hyz | hy3
      · rw [hyz]
        by_cases hzx : (key z).blt (key x) = true
        · simpa [hzx] using hacc
        · exact PyCost.ble_trans (by simpa [hzx] using hacc) (PyCost.ble_of_not_blt hzx)
      · exact ih _ y (List.mem_cons_of_mem _ hy3)

/-- Python `min(l, key=key)` returns an element whose key is `<=` the key
of every list element. -/
theorem pyMinBy_le {α : Type} (key : α → PyCost) (l : List α) (b : α)
    (hmin : pyMinBy key l = some b) : ∀ x ∈ l, (key b).ble (key x) = true := by
  cases l with
  | nil => cases hmin
  | cons x xs =>
    simp only [pyMinBy, Option.some.injEq] at hmin
    subst hmin
    exact fun y hy => pyMinBy_foldl_le key xs x y hy

/-- Shape of a successful `_try_two_hop_route` result: both discovery
steps produced quotes, the first-hop output passed the guard, and the
returned route is exactly the record built from the two cheapest
quotes. -/
theorem try_two_hop_route_some_shape
    (source intermediate destination token amount : String)
    (hop1_quotes : List DirectQuote) (oracle : String → List DirectQuote)
    (route : MultiHopRoute)
    (heq : try_two_hop_route source intermediate destination token amount
      hop1_quotes oracle = some route) :
    ∃ (hop1_best hop2_best : DirectQuote),
      pyMinBy DirectQuote.costKey hop1_quotes = some hop1_best ∧
      ¬ (hop1_best.amount_out.getD "0" = "" ∨ hop1_best.amount_out.getD "0" = "0") ∧
      pyMinBy DirectQuote.costKey (oracle (hop1_best.amount_out.getD "0")) = some hop2_best ∧
      route =
        { hops :=
            [{ source_chain := source, destination_chain := intermediate,
               bridge_name := hop1_best.bridge_name, token := token,
               amount_in := amount, amount_out := hop1_best.amount_out.getD "0",
               estimated_cost_usd := hop1_best.estimated_cost_usd.getD 0,
               estimated_time_minutes := hop1_best.estimated_time_minutes.getD 0,
               gas_cost_native := hop1_best.gas_cost_native.getD "0",
               gas_cost_usd := hop1_best.gas_cost_usd.getD 0 },
             { source_chain := intermediate, destination_chain := destination,
               bridge_name := hop2_best.bridge_name, token := token,
               amount_in := hop1_best.amount_out.getD "0",
               amount_out := hop2_best.amount_out.getD "0",
               estimated_cost_usd := hop2_best.estimated_cost_usd.getD 0,
               estimated_time_minutes := hop2_best.estimated_time_minutes.getD 0,
               gas_cost_native := hop2_best.gas_cost_native.getD "0",
               gas_cost_usd := hop2_best.gas_cost_usd.getD 0 }],
          total_cost_usd :=
            hop1_best.estimated_cost_usd.getD 0 + hop2_best.estimated_cost_usd.getD 0,
          total_time_minutes :=
            hop1_best.estimated_time_minutes.getD 0 + hop2_best.estimated_time_minutes.getD 0,
          final_amount := hop2_best.amount_out.getD "0",
          slippage_percent :=
            pyRound2 (if 0 < pyFloat amount then
              (pyFloat amount - pyFloat (hop2_best.amount_out.getD "0")) / pyFloat amount * 100
            else 0),
          is_better_than_direct := false,
          savings_usd := none } := by
  unfold try_two_hop_route at heq
  split at heq
  · cases heq
  · rename_i hop1_best hmin1
    simp only [] at heq
    split at heq
    · cases heq
    · rename_i hout
      split at heq
      · cases heq
      · rename_i hop2_best hmin2
        rw [Option.some.injEq] at heq
        exact ⟨hop1_best, hop2_best, hmin1, hout, hmin2, heq.symm⟩

/-- **C10.**  Guards in `_try_two_hop_route`: (1) when the cheapest
first-hop quote carries no output amount (empty) or an output of `"0"`,
the search for that intermediate returns `None` for *every* possible
second-hop discovery result — the second hop is never queried; (2) the
end-to-end slippage is guarded, so a non-positive input amount produces a
slippage of exactly `0` rather than a division by zero. -/
theorem C10_try_two_hop_guards :
    (∀ (source intermediate destination token amount : String)
       (hop1_quotes : List DirectQuote) (oracle : String → List DirectQuote)
       (hop1_best : DirectQuote),
       pyMinBy DirectQuote.costKey hop1_quotes = some hop1_best →
       (hop1_best.amount_out.getD "0" = "" ∨ hop1_best.amount_out.getD "0" = "0") →
       try_two_hop_route source intermediate destination token amount
         hop1_quotes oracle = none) ∧
    (∀ (source intermediate destination token amount : String)
       (hop1_quotes : List DirectQuote) (oracle : String → List DirectQuote)
       (route : MultiHopRoute),
       pyFloat amount ≤ 0 →
       try_two_hop_route source intermediate destination token amount
         hop1_quotes oracle = some route →
       route.slippage_percent = 0) := by
  constructor
  · intro source intermediate destination token amount hop1_quotes oracle hop1_best hmin hout
    unfold try_two_hop_route
    rw [hmin]
    simp only [if_pos hout]
  · intro source intermediate destination token amount hop1_quotes oracle route hamt heq
    obtain ⟨hop1_best, hop2_best, -, -, -, hroute⟩ :=
      try_two_hop_route_some_shape _ _ _ _ _ _ _ _ heq
    subst hroute
    have hnot : ¬ (0 < pyFloat amount) := not_lt.mpr hamt
    simp only [if_neg hnot]
    exact pyRound2_zero

/-- **C2.**  (a) Every fee breakdown built by the Across adapter's
response parser has `total_cost_usd` exactly
`bridge_fee_usd + gas_cost_source_usd + gas_cost_destination_usd`;
(b) every `MultiHopRoute` constructed by the two-hop search has
`total_cost_usd` exactly the sum of its hops' `estimated_cost_usd`. -/
theorem C2_total_cost_invariants :
    (∀ (amount : String) (relay_fee_pct : ℚ) (source_chain destination_chain qid : String),
       (parse_across_response amount relay_fee_pct source_chain destination_chain
           qid).fee_breakdown.total_cost_usd =
         (parse_across_response amount relay_fee_pct source_chain destination_chain
             qid).fee_breakdown.bridge_fee_usd +
         (parse_across_response amount relay_fee_pct source_chain destination_chain
             qid).fee_breakdown.gas_cost_source_usd +
         (parse_across_response amount relay_fee_pct source_chain destination_chain
             qid).fee_breakdown.gas_cost_destination_usd) ∧
    (∀ (source intermediate destination token amount : String)
       (hop1_quotes : List DirectQuote) (oracle : String → List DirectQuote)
       (route : MultiHopRoute),
       try_two_hop_route source intermediate destination token amount
         hop1_quotes oracle = some route →
       route.total_cost_usd = (route.hops.map RouteHop.estimated_cost_usd).sum) := by
  constructor
  · intro amount relay_fee_pct source_chain destination_chain qid
    rfl
  · intro source intermediate destination token amount hop1_quotes oracle route heq
    obtain ⟨hop1_best, hop2_best, -, -, -, hroute⟩ :=
      try_two_hop_route_some_shape _ _ _ _ _ _ _ _ heq
    subst hroute
    simp

/-- Witness quote: cheapest first hop, output `"90"`. -/
def dqW1 : DirectQuote :=
  { bridge_name := some "hop1", estimated_cost_usd := some 1, amount_out := some "90" }

/-- Witness quote: second hop, output `"80"`. -/
def dqW2 : DirectQuote :=
  { bridge_name := some "hop2", estimated_cost_usd := some 2, amount_out := some "80" }

/-- Witness quote whose output amount is the string `"0"`. -/
def dqW0 : DirectQuote := { amount_out := some "0" }

/-- The route `_try_two_hop_route` builds from `dqW1`/`dqW2` on input
amount `"0"`. -/
def mhW0 : MultiHopRoute :=
  { hops :=
      [{ source_chain := "polygon", destination_chain := "ethereum",
         bridge_name := some "hop1", token := "USDC", amount_in := "0",
         amount_out := "90", estimated_cost_usd := 1, estimated_time_minutes := 0,
         gas_cost_native := "0", gas_cost_usd := 0 },
       { source_chain := "ethereum", destination_chain := "base",
         bridge_name := some "hop2", token := "USDC", amount_in := "90",
         amount_out := "80", estimated_cost_usd := 2, estimated_time_minutes := 0,
         gas_cost_native := "0", gas_cost_usd := 0 }],
    total_cost_usd := 3, total_time_minutes := 0, final_amount := "80",
    slippage_percent := 0, is_better_than_direct := false }

theorem C10_witness :
    try_two_hop_route "polygon" "ethereum" "base" "USDC" "100" [dqW0]
      (fun _ => [dqW2]) = none ∧
    mhW0.slippage_percent = 0 :=
  ⟨C10_try_two_hop_guards.1 "polygon" "ethereum" "base" "USDC" "100" [dqW0]
      (fun _ => [dqW2]) dqW0 rfl (Or.inr rfl),
   C10_try_two_hop_guards.2 "polygon" "ethereum" "base" "USDC" "0" [dqW1]
      (fun _ => [dqW2]) mhW0
      (by simp +decide [pyFloat, digitsVal, digitVal])
      (by simp +decide [try_two_hop_route, pyMinBy, PyCost.blt, DirectQuote.costKey,
            dqW1, dqW2, mhW0, pyFloat, digitsVal, digitVal, pyRound2, roundHalfEven]
          norm_num)⟩

theorem C2_witness :
    (parse_across_response "1000000" (1/1000) "ethereum" "arbitrum"
        "qid").fee_breakdown.total_cost_usd =
      (parse_across_response "1000000" (1/1000) "ethereum" "arbitrum"
          "qid").fee_breakdown.bridge_fee_usd +
      (parse_across_response "1000000" (1/1000) "ethereum" "arbitrum"
          "qid").fee_breakdown.gas_cost_source_usd +
      (parse_across_response "1000000" (1/1000) "ethereum" "arbitrum"
          "qid").fee_breakdown.gas_cost_destination_usd ∧
    mhW0.total_cost_usd = (mhW0.hops.map RouteHop.estimated_cost_usd).sum :=
  ⟨C2_total_cost_invariants.1 "1000000" (1/1000) "ethereum" "arbitrum" "qid",
   C2_total_cost_invariants.2 "polygon" "ethereum" "base" "USDC" "0" [dqW1]
      (fun _ => [dqW2]) mhW0
      (by simp +decide [try_two_hop_route, pyMinBy, PyCost.blt, DirectQuote.costKey,
            dqW1, dqW2, mhW0, pyFloat, digitsVal, digitVal, pyRound2, roundHalfEven]
          norm_num)⟩

/-- **C3 (amended: the recorded savings are rounded to two decimals).**
For a `find_best_route` call with multi-hop enabled, `max_hops ≥ 2`, a
direct candidate whose cheapest quote `db` carries cost `dc`, and at least
one constructed two-hop route with cheapest representative `mh`: if
`dc ≤ mh.total_cost_usd` the direct quote wins, with the best two-hop
route offered as the alternative and the cost delta recorded
(`direct_savings_usd`); otherwise the two-hop route is primary, the direct
quote is the alternative, and `savings_usd = round(dc − multihop cost, 2)`.
`db` and `mh` are cheapest among their batches. -/
theorem C3_find_best_route_comparison
    (direct_quotes : List DirectQuote) (multi_hop_routes : List MultiHopRoute)
    (include_multi_hop : Bool) (max_hops : ℤ)
    (db : DirectQuote) (dc : ℚ) (mh : MultiHopRoute)
    (hdb : pyMinBy DirectQuote.costKey direct_quotes = some db)
    (hdc : db.estimated_cost_usd = some dc)
    (hmh : pyMinBy (fun m => PyCost.fin m.total_cost_usd) multi_hop_routes = some mh)
    (hinc : include_multi_hop = true) (hhops : 2 ≤ max_hops) :
    (∀ m ∈ multi_hop_routes, mh.total_cost_usd ≤ m.total_cost_usd) ∧
    (∀ q ∈ direct_quotes, (DirectQuote.costKey db).ble (DirectQuote.costKey q) = true) ∧
    (dc ≤ mh.total_cost_usd →
      find_best_route direct_quotes multi_hop_routes include_multi_hop max_hops =
        { route_type := "direct", best_route := some (.direct db),
          alternatives := [.multiHop mh], multi_hop_checked := true,
          direct_savings_usd := some (.fin (pyRound2 (mh.total_cost_usd - dc))) }) ∧
    (mh.total_cost_usd < dc →
      find_best_route direct_quotes multi_hop_routes include_multi_hop max_hops =
        { route_type := "multi-hop", best_route := some (.multiHop mh),
          alternatives := [.direct db], multi_hop_checked := true,
          savings_usd := some (.fin (pyRound2 (dc - mh.total_cost_usd))) }) := by
  subst hinc
  have hnlt : ¬ (max_hops < 2) := not_lt.mpr hhops
  refine ⟨?_, ?_, ?_, ?_⟩
  · intro m hm
    have h := pyMinBy_le _ _ _ hmh m hm
    simpa [PyCost.ble] using h
  · exact pyMinBy_le _ _ _ hdb
  · intro hle
    simp only [find_best_route, hdb, hmh, hdc, hnlt, DirectQuote.costKey]
    simp [PyCost.ble, PyCost.sub, PyCost.round2, hle]
  · intro hlt
    have hnle : ¬ (dc ≤ mh.total_cost_usd) := not_le.mpr hlt
    have hne : dc - mh.total_cost_usd ≠ 0 := sub_ne_zero.mpr (ne_of_gt hlt)
    simp only [find_best_route, hdb, hmh, hdc, hnlt, DirectQuote.costKey]
    simp [PyCost.ble, PyCost.sub, PyCost.round2, PyCost.truthy, hnle, hne]

/-- Direct quote of `$10.006` for the C3 counterexample. -/
def dq10006 : DirectQuote := { estimated_cost_usd := some (10006 / 1000) }

/-- Direct quote of `$10`. -/
def dq10 : DirectQuote := { estimated_cost_usd := some 10 }

/-- A two-hop route totalling `$7`. -/
def mh7 : MultiHopRoute :=
  { hops := [], total_cost_usd := 7, total_time_minutes := 0, final_amount := "0",
    slippage_percent := 0, is_better_than_direct := false }

/-- **C3, counterexample.**  With a direct cost of `$10.006` and a two-hop
total of `$7`, the multi-hop route wins but the recorded `savings_usd` is
the two-decimal rounding `3.01`, not the exact difference
`direct_cost − multihop_cost = 3.006` the claim states. -/
theorem C3_counterexample :
    (find_best_route [dq10006] [mh7] true 2).route_type = "multi-hop" ∧
    (find_best_route [dq10006] [mh7] true 2).savings_usd ≠
      some (PyCost.fin (10006 / 1000 - 7)) ∧
    (find_best_route [dq10006] [mh7] true 2).savings_usd =
      some (PyCost.fin (301 / 100)) := by
  have hble : (PyCost.fin ((10006 : ℚ) / 1000)).ble (PyCost.fin 7) = false := by
    simp only [PyCost.ble, decide_eq_false_iff_not]
    norm_num
  have hne : (10006 : ℚ) / 1000 - 7 ≠ 0 := by norm_num
  have hround : pyRound2 ((10006 : ℚ) / 1000 - 7) = 301 / 100 := by
    rw [show ((10006 : ℚ) / 1000 - 7) = 3006 / 1000 by norm_num]
    have h2 : ⌊(3006 : ℚ) / 1000 * 100⌋ = 300 := by norm_num [Int.floor_eq_iff]
    simp only [pyRound2, roundHalfEven, h2]
    norm_num
  have hcalc : find_best_route [dq10006] [mh7] true 2 =
      { route_type := "multi-hop", best_route := some (.multiHop mh7),
        alternatives := [.direct dq10006], multi_hop_checked := true,
        savings_usd := some (.fin (pyRound2 ((10006 : ℚ) / 1000 - 7))) } := by
    simp only [find_best_route, pyMinBy, List.foldl_nil, DirectQuote.costKey, dq10006, mh7,
      PyCost.sub, PyCost.truthy, PyCost.round2, hble]
    simp [hne]
  refine ⟨by rw [hcalc], ?_, by rw [hcalc, hround]⟩
  rw [hcalc, hround]
  intro h
  rw [Option.some.injEq, PyCost.fin.injEq] at h
  norm_num at h

theorem C3_witness :
    find_best_route [dq10] [mh7] true 2 =
      { route_type := "multi-hop", best_route := some (.multiHop mh7),
        alternatives := [.direct dq10], multi_hop_checked := true,
        savings_usd := some (.fin 3) } := by
  have h := (C3_find_best_route_comparison [dq10] [mh7] true 2 dq10 10 mh7 rfl rfl rfl rfl
    (by norm_num)).2.2.2 (by norm_num [mh7])
  rw [h, show mh7.total_cost_usd = 7 from rfl,
    show pyRound2 ((10 : ℚ) - 7) = 3 by
      rw [show ((10 : ℚ) - 7) = ((3 : ℤ) : ℚ) by norm_num]
      exact pyRound2_intCast 3]

/-! ## Reliability scorer (`app/services/reliability_scorer.py`) -/

/-- A row of the `TransactionHistory` store as the scorer reads it. -/
structure TransactionRecord where
  status : String
  actual_time_minutes : Option ℚ := none
  actual_cost_usd : Option ℚ := none
deriving DecidableEq

/-- The sample selection of `_calculate_time_consistency_score`:
`[t for t in transactions if t.status == "completed" and t.actual_time_minutes]`
(Python truthiness: a missing or zero time is excluded), then the times. -/
def completed_times (transactions : List TransactionRecord) : List ℚ :=
  (transactions.filter (fun t =>
    decide (t.status = "completed") &&
      (match t.actual_time_minutes with
       | some m => decide (m ≠ 0)
       | none => false))).filterMap (fun t => t.actual_time_minutes)

/-- `avg_time = sum(times) / len(times)`. -/
def sampleMean (xs : List ℚ) : ℚ := xs.sum / xs.length

/-- `variance = sum((t - avg_time) ** 2 for t in times) / len(times)`. -/
def sampleVariance (xs : List ℚ) : ℚ :=
  (xs.map (fun t => (t - sampleMean xs) ^ 2)).sum / xs.length

/-- `std_dev = variance ** 0.5` (real square root). -/
noncomputable def sampleStd (xs : List ℚ) : ℝ := Real.sqrt ((sampleVariance xs : ℚ) : ℝ)

/-- `ReliabilityScorer._calculate_time_consistency_score`: fewer than 3
usable samples (or a zero mean) default to `50`; otherwise
`cv = (std_dev / avg_time) * 100` and the score is
`max(0, 100 - cv * 2)`. -/
noncomputable def calculate_time_consistency_score
    (transactions : List TransactionRecord) : ℝ :=
  let times := completed_times transactions
  if times.length < 3 then 50
  else if sampleMean times = 0 then 50
  else
    let cv : ℝ := sampleStd times / ((sampleMean times : ℚ) : ℝ) * 100
    max 0 (100 - cv * 2)

/-- `ReliabilityScorer._get_rating`: fixed letter-rating thresholds. -/
def get_rating (score : ℚ) : String :=
  if 90 ≤ score then "A+"
  else if 85 ≤ score then "A"
  else if 80 ≤ score then "A-"
  else if 75 ≤ score then "B+"
  else if 70 ≤ score then "B"
  else if 65 ≤ score then "B-"
  else if 60 ≤ score then "C+"
  else if 55 ≤ score then "C"
  else if 50 ≤ score then "C-"
  else "D"

/-- **C6 (amended: the coefficient of variation enters the formula as a
percentage).**  With at least 3 completed transactions carrying (nonzero)
completion times and a nonzero mean, the time-consistency component equals
`max(0, 100 − 2·CV%)` where `CV% = 100·stddev/mean`; with fewer than 3
usable samples it defaults to `50`. -/
theorem C6_time_consistency (transactions : List TransactionRecord) :
    ((completed_times transactions).length < 3 →
      calculate_time_consistency_score transactions = 50) ∧
    (3 ≤ (completed_times transactions).length →
      sampleMean (completed_times transactions) ≠ 0 →
      calculate_time_consistency_score transactions =
        max 0 (100 - 2 * (100 * sampleStd (completed_times transactions) /
          ((sampleMean (completed_times transactions) : ℚ) : ℝ)))) := by
  constructor
  · intro h
    simp [calculate_time_consistency_score, h]
  · intro h3 hm
    have hn : ¬ ((completed_times transactions).length < 3) := not_lt.mpr h3
    simp only [calculate_time_consistency_score, if_neg hn, if_neg hm]
    congr 1
    ring

/-- Four completed transactions with times `3, 3, 5, 5` minutes. -/
def txsC6 : List TransactionRecord :=
  [{ status := "completed", actual_time_minutes := some 3 },
   { status := "completed", actual_time_minutes := some 3 },
   { status := "completed", actual_time_minutes := some 5 },
   { status := "completed", actual_time_minutes := some 5 }]

theorem completed_times_txsC6 : completed_times txsC6 = [3, 3, 5, 5] := by
  simp +decide [completed_times, txsC6]

theorem sampleMean_txsC6 : sampleMean (completed_times txsC6) = 4 := by
  rw [completed_times_txsC6]
  norm_num [sampleMean]

theorem sampleStd_txsC6 : sampleStd (completed_times txsC6) = 1 := by
  rw [completed_times_txsC6]
  have hv : sampleVariance [3, 3, 5, 5] = 1 := by
    have hmean : sampleMean [(3 : ℚ), 3, 5, 5] = 4 := by norm_num [sampleMean]
    norm_num [sampleVariance, hmean]
  rw [sampleStd, hv]
  simp

/-- **C6, counterexample.**  For completion times `3, 3, 5, 5` (mean 4,
standard deviation 1, so `CV = stddev/mean = 1/4`), the code returns
`100 − 2·25 = 50` because it doubles the CV expressed as a *percentage*,
whereas `100 − 2·CV` with `CV = stddev/mean` as claimed would give
`99.5`. -/
theorem C6_counterexample :
    calculate_time_consistency_score txsC6 = 50 ∧
    max (0 : ℝ) (100 - 2 * (sampleStd (completed_times txsC6) /
      ((sampleMean (completed_times txsC6) : ℚ) : ℝ))) = 199 / 2 ∧
    calculate_time_consistency_score txsC6 ≠
      max 0 (100 - 2 * (sampleStd (completed_times txsC6) /
        ((sampleMean (completed_times txsC6) : ℚ) : ℝ))) := by
  have hlen : ¬ ((completed_times txsC6).length < 3) := by
    rw [completed_times_txsC6]
    norm_num
  have hm : sampleMean (completed_times txsC6) ≠ 0 := by
    rw [sampleMean_txsC6]
    norm_num
  have hscore : calculate_time_consistency_score txsC6 = 50 := by
    simp only [calculate_time_consistency_score, if_neg hlen, if_neg hm,
      sampleStd_txsC6, sampleMean_txsC6]
    rw [max_eq_right (by norm_num)]
    norm_num
  have hclaim : max (0 : ℝ) (100 - 2 * (sampleStd (completed_times txsC6) /
      ((sampleMean (completed_times txsC6) : ℚ) : ℝ))) = 199 / 2 := by
    rw [sampleStd_txsC6, sampleMean_txsC6]
    rw [max_eq_right (by norm_num)]
    norm_num
  exact ⟨hscore, hclaim, by rw [hscore, hclaim]; norm_num⟩

theorem C6_witness :
    calculate_time_consistency_score txsC6 =
      max 0 (100 - 2 * (100 * sampleStd (completed_times txsC6) /
        ((sampleMean (completed_times txsC6) : ℚ) : ℝ))) :=
  (C6_time_consistency txsC6).2
    (by rw [completed_times_txsC6]; norm_num)
    (by rw [sampleMean_txsC6]; norm_num)

/-- **C7.**  The letter rating is determined by the fixed thresholds
`≥90→A+, ≥85→A, ≥80→A-, ≥75→B+, ≥70→B, ≥65→B-, ≥60→C+, ≥55→C, ≥50→C-,
else D`; in particular `90.0, 89.9, 80.0, 79.9` map to `A+, A, A-, B+`. -/
theorem C7_get_rating_thresholds (s : ℚ) :
    (90 ≤ s → get_rating s = "A+") ∧
    (85 ≤ s → s < 90 → get_rating s = "A") ∧
    (80 ≤ s → s < 85 → get_rating s = "A-") ∧
    (75 ≤ s → s < 80 → get_rating s = "B+") ∧
    (70 ≤ s → s < 75 → get_rating s = "B") ∧
    (65 ≤ s → s < 70 → get_rating s = "B-") ∧
    (60 ≤ s → s < 65 → get_rating s = "C+") ∧
    (55 ≤ s → s < 60 → get_rating s = "C") ∧
    (50 ≤ s → s < 55 → get_rating s = "C-") ∧
    (s < 50 → get_rating s = "D") ∧
    get_rating 90 = "A+" ∧ get_rating (899 / 10) = "A" ∧
    get_rating 80 = "A-" ∧ get_rating (799 / 10) = "B+" := by
  refine ⟨?_, ?_, ?_, ?_, ?_, ?_, ?_, ?_, ?_, ?_, ?_, ?_, ?_, ?_⟩
  · intro h1
    unfold get_rating
    rw [if_pos h1]
  · intro h1 h2
    unfold get_rating
    rw [if_neg (by linarith), if_pos h1]
  · intro h1 h2
    unfold get_rating
    rw [if_neg (by linarith), if_neg (by linarith), if_pos h1]
  · intro h1 h2
    unfold get_rating
    rw [if_neg (by linarith), if_neg (by linarith), if_neg (by linarith), if_pos h1]
  · intro h1 h2
    unfold get_rating
    rw [if_neg (by linarith), if_neg (by linarith), if_neg (by linarith),
      if_neg (by linarith), if_pos h1]
  · intro h1 h2
    unfold get_rating
    rw [if_neg (by linarith), if_neg (by linarith), if_neg (by linarith),
      if_neg (by linarith), if_neg (by linarith), if_pos h1]
  · intro h1 h2
    unfold get_rating
    rw [if_neg (by linarith), if_neg (by linarith), if_neg (by linarith),
      if_neg (by linarith), if_neg (by linarith), if_neg (by linarith), if_pos h1]
  · intro h1 h2
    unfold get_rating
    rw [if_neg (by linarith), if_neg (by linarith), if_neg (by linarith),
      if_neg (by linarith), if_neg (by linarith), if_neg (by linarith),
      if_neg (by linarith), if_pos h1]
  · intro h1 h2
    unfold get_rating
    rw [if_neg (by linarith), if_neg (by linarith), if_neg (by linarith),
      if_neg (by linarith), if_neg (by linarith), if_neg (by linarith),
      if_neg (by linarith), if_neg (by linarith), if_pos h1]
  · intro h1
    unfold get_rating
    rw [if_neg (by linarith), if_neg (by linarith), if_neg (by linarith),
      if_neg (by linarith), if_neg (by linarith), if_neg (by linarith),
      if_neg (by linarith), if_neg (by linarith), if_neg (by linarith)]
  · norm_num [get_rating]
  · norm_num [get_rating]
  · norm_num [get_rating]
  · norm_num [get_rating]

theorem C7_witness : get_rating 92 = "A+" :=
  (C7_get_rating_thresholds 92).1 (by norm_num)

/-! ## Cache key (`RouteDiscoveryEngine._get_cache_key`)

The key is `"route_quote:" + md5(canonical JSON).hexdigest()`.  MD5 is
implemented below bit-for-bit (RFC 1321) over naturals reduced mod `2^32`;
the test vectors of the RFC and the digests of the JSON strings used in
the theorems match CPython's `hashlib.md5`. -/

/-- Reduce mod `2^32`. -/
def u32 (n : Nat) : Nat := n % 4294967296

/-- Bitwise complement within 32 bits. -/
def not32 (n : Nat) : Nat := 4294967295 - n

/-- 32-bit left rotation. -/
def rotl32 (x n : Nat) : Nat := u32 ((x <<< n) ||| (x >>> (32 - n)))

/-- The MD5 sine-derived constant table `K`. -/
def md5K : List Nat :=
  [0xd76aa478, 0xe8c7b756, 0x242070db, 0xc1bdceee,
   0xf57c0faf, 0x4787c62a, 0xa8304613, 0xfd469501,
   0x698098d8, 0x8b44f7af, 0xffff5bb1, 0x895cd7be,
   0x6b901122, 0xfd987193, 0xa679438e, 0x49b40821,
   0xf61e2562, 0xc040b340, 0x265e5a51, 0xe9b6c7aa,
   0xd62f105d, 0x02441453, 0xd8a1e681, 0xe7d3fbc8,
   0x21e1cde6, 0xc33707d6, 0xf4d50d87, 0x455a14ed,
   0xa9e3e905, 0xfcefa3f8, 0x676f02d9, 0x8d2a4c8a,
   0xfffa3942, 0x8771f681, 0x6d9d6122, 0xfde5380c,
   0xa4beea44, 0x4bdecfa9, 0xf6bb4b60, 0xbebfbc70,
   0x289b7ec6, 0xeaa127fa, 0xd4ef3085, 0x04881d05,
   0xd9d4d039, 0xe6db99e5, 0x1fa27cf8, 0xc4ac5665,
   0xf4292244, 0x432aff97, 0xab9423a7, 0xfc93a039,
   0x655b59c3, 0x8f0ccc92, 0xffeff47d, 0x85845dd1,
   0x6fa87e4f, 0xfe2ce6e0, 0xa3014314, 0x4e0811a1,
   0xf7537e82, 0xbd3af235, 0x2ad7d2bb, 0xeb86d391]

/-- The MD5 per-round shift table `s`. -/
def md5S : List Nat :=
  [7, 12, 17, 22, 7, 12, 17, 22, 7, 12, 17, 22, 7, 12, 17, 22,
   5, 9, 14, 20, 5, 9, 14, 20, 5, 9, 14, 20, 5, 9, 14, 20,
   4, 11, 16, 23, 4, 11, 16, 23, 4, 11, 16, 23, 4, 11, 16, 23,
   6, 10, 15, 21, 6, 10, 15, 21, 6, 10, 15, 21, 6, 10, 15, 21]

/-- Pad a byte string to a multiple of 64 bytes: `0x80`, zeros, then the
bit length as 8 little-endian bytes. -/
def md5Pad (msg : List Nat) : List Nat :=
  let bitLen := msg.length * 8
  let padZeros := (120 - ((msg.length + 1) % 64)) % 64
  msg ++ [128] ++ List.replicate padZeros 0 ++
    (List.range 8).map (fun i => (bitLen >>> (8 * i)) % 256)

/-- A 64-byte block as 16 little-endian 32-bit words. -/
def md5Words (block : List Nat) : List Nat :=
  (List.range 16).map (fun j =>
    block.getD (4 * j) 0 + 256 * block.getD (4 * j + 1) 0 +
    65536 * block.getD (4 * j + 2) 0 + 16777216 * block.getD (4 * j + 3) 0)

/-- One of the 64 MD5 operations on the state `(a, b, c, d)`. -/
def md5Step (m : List Nat) (st : Nat × Nat × Nat × Nat) (i : Nat) :
    Nat × Nat × Nat × Nat :=
  let (a, b, c, d) := st
  let f :=
    if i < 16 then (b &&& c) ||| (not32 b &&& d)
    else if i < 32 then (d &&& b) ||| (not32 d &&& c)
    else if i < 48 then b ^^^ c ^^^ d
    else c ^^^ (b ||| not32 d)
  let g :=
    if i < 16 then i
    else if i < 32 then (5 * i + 1) % 16
    else if i < 48 then (3 * i + 5) % 16
    else (7 * i) % 16
  let tmp := u32 (f + a + md5K.getD i 0 + m.getD g 0)
  (d, u32 (b + rotl32 tmp (md5S.getD i 0)), b, c)

/-- Process one 64-byte block. -/
def md5Block (st : Nat × Nat × Nat × Nat) (block : List Nat) :
    Nat × Nat × Nat × Nat :=
  let m := md5Words block
  let (h0, h1, h2, h3) := st
  let (a, b, c, d) := (List.range 64).foldl (md5Step m) st
  (u32 (h0 + a), u32 (h1 + b), u32 (h2 + c), u32 (h3 + d))

/-- Split into 64-byte chunks (fuel-structured so that it reduces in the
kernel; the fuel `l.length` always suffices). -/
def chunks64Go : Nat → List Nat → List (List Nat)
  | 0, _ => []
  | _ + 1, [] => []
  | fuel + 1, l => (l.take 64) :: chunks64Go fuel (l.drop 64)

def chunks64 (l : List Nat) : List (List Nat) := chunks64Go l.length l

/-- Lower-case hex digit. -/
def hexDigit (n : Nat) : Char :=
  if n < 10 then Char.ofNat (48 + n) else Char.ofNat (87 + n)

def byteHex (b : Nat) : List Char := [hexDigit (b / 16), hexDigit (b % 16)]

/-- A 32-bit word as 8 hex characters, little-endian byte order. -/
def wordLEHex (w : Nat) : List Char :=
  byteHex (w % 256) ++ byteHex ((w >>> 8) % 256) ++ byteHex ((w >>> 16) % 256) ++
    byteHex ((w >>> 24) % 256)

/-- `hashlib.md5(s.encode()).hexdigest()` for an ASCII string (every
string hashed by `_get_cache_key` in the claims below is ASCII, where
UTF-8 bytes coincide with the char codes). -/
def md5hex (s : String) : String :=
  let msg := s.data.map Char.toNat
  let blocks := chunks64 (md5Pad msg)
  let (a, b, c, d) := blocks.foldl md5Block (0x67452301, 0xefcdab89, 0x98badcfe, 0x10325476)
  String.mk (wordLEHex a ++ wordLEHex b ++ wordLEHex c ++ wordLEHex d)

/-- The canonical JSON built by `_get_cache_key`:
`json.dumps(key_data, sort_keys=True)` over the five raw route-parameter
fields (`user_address` is not part of the dict), keys in sorted order with
CPython's default separators.  The field values occurring here never need
JSON string escaping. -/
def cache_key_json (p : RouteParams) : String :=
  "\x7b\"amount\": \"" ++ p.amount ++
  "\", \"destination_chain\": \"" ++ p.destination_chain ++
  "\", \"destination_token\": \"" ++ p.destination_token ++
  "\", \"source_chain\": \"" ++ p.source_chain ++
  "\", \"source_token\": \"" ++ p.source_token ++ "\"\x7d"

/-- `RouteDiscoveryEngine._get_cache_key`. -/
def get_cache_key (p : RouteParams) : String :=
  "route_quote:" ++ md5hex (cache_key_json p)

set_option maxRecDepth 8000 in
theorem md5hex_rfc_vector : md5hex "abc" = "900150983cd24fb0d6963f7d28e17f72" := by
  decide

/-- Route parameters with capitalised chain names. -/
def paramsUpperC5 : RouteParams :=
  { source_chain := "Ethereum", destination_chain := "Arbitrum",
    source_token := "USDC", destination_token := "USDC", amount := "1000000" }

/-- The same route with the chain names lower-cased. -/
def paramsLowerC5 : RouteParams :=
  { source_chain := "ethereum", destination_chain := "arbitrum",
    source_token := "USDC", destination_token := "USDC", amount := "1000000" }

set_option maxRecDepth 20000 in
/-- **C5, counterexample.**  `_get_cache_key` performs no case
normalization: two `RouteParams` that differ only in the letter case of
their chain names (`Ethereum`/`Arbitrum` versus `ethereum`/`arbitrum` —
the lower parameters are character-wise `Char.toLower` of the upper ones)
hash to different cache keys, so the claimed case-insensitivity fails. -/
theorem C5_counterexample :
    paramsLowerC5.source_chain.data = paramsUpperC5.source_chain.data.map Char.toLower ∧
    paramsLowerC5.destination_chain.data =
      paramsUpperC5.destination_chain.data.map Char.toLower ∧
    paramsLowerC5.source_token = paramsUpperC5.source_token ∧
    paramsLowerC5.destination_token = paramsUpperC5.destination_token ∧
    paramsLowerC5.amount = paramsUpperC5.amount ∧
    get_cache_key paramsUpperC5 ≠ get_cache_key paramsLowerC5 := by
  refine ⟨by decide, by decide, rfl, rfl, rfl, by decide⟩

/-- **C5 (amended: the fingerprint uses the raw, un-normalized
parameters).**  The cache key is a function of exactly the five raw fields
`source_chain`, `destination_chain`, `source_token`, `destination_token`
and `amount` as given — no lower-casing is applied and `user_address` is
ignored — so two `RouteParams` agreeing verbatim on those five fields get
the same key, while case variants in general do not (see the
counterexample). -/
theorem C5_cache_key_raw_fields (p q : RouteParams)
    (h1 : p.source_chain = q.source_chain)
    (h2 : p.destination_chain = q.destination_chain)
    (h3 : p.source_token = q.source_token)
    (h4 : p.destination_token = q.destination_token)
    (h5 : p.amount = q.amount) :
    get_cache_key p = get_cache_key q := by
  unfold get_cache_key cache_key_json
  rw [h1, h2, h3, h4, h5]

theorem C5_witness :
    get_cache_key { paramsUpperC5 with user_address := some "0xAbCd" } =
      get_cache_key paramsUpperC5 :=
  C5_cache_key_raw_fields _ _ rfl rfl rfl rfl rfl
